import Mathlib

set_option autoImplicit false
set_option maxRecDepth 8000

namespace Sud

/- Shallow embedding of pyseneye/sud.py: the struct-format decoder
(BaseResponse and subclasses), the action registry ACTION_DEFINITIONS and
the polling orchestrator SUDevice.action. Buffers are lists of byte values
(Nat, each below 256 in practice); time values are rationals, modelling the
wall-clock seconds returned by time.time() minus the recorded start. -/

/-- One field of a Python struct format string, restricted to the codes used
by sud.py: fixed-length byte blocks (s), unsigned ints B/H/I, signed int i,
bool ? and single char c. All multi-byte codes are little-endian (the format
strings in sud.py all start with the < byte-order mark). -/
inductive FmtItem where
  | bytes (n : Nat)
  | uint (w : Nat)
  | sint (w : Nat)
  | bool
  | char
deriving DecidableEq

/-- Byte size of one format item; summing gives struct.calcsize. -/
def FmtItem.size : FmtItem → Nat
  | .bytes n => n
  | .uint w => w
  | .sint w => w
  | .bool => 1
  | .char => 1

/-- The items produced by one struct format code with repeat count n.
A count before the s code is a byte-block length, producing a single value;
before any other code it is a repetition count. -/
def itemFor : Char → Nat → Option (List FmtItem)
  | 's', n => some [FmtItem.bytes n]
  | 'B', n => some (List.replicate n (FmtItem.uint 1))
  | 'H', n => some (List.replicate n (FmtItem.uint 2))
  | 'I', n => some (List.replicate n (FmtItem.uint 4))
  | 'i', n => some (List.replicate n (FmtItem.sint 4))
  | '?', n => some (List.replicate n FmtItem.bool)
  | 'c', n => some (List.replicate n FmtItem.char)
  | _, _ => none

/-- Parser for the struct format codes, with an optional pending decimal
repeat count (none means no digits seen, which defaults to count 1). -/
def parseFmtAux : List Char → Option Nat → Option (List FmtItem)
  | [], none => some []
  | [], some _ => none
  | c :: rest, acc =>
    if c.isDigit then
      parseFmtAux rest (some ((acc.getD 0) * 10 + (c.toNat - 48)))
    else
      match itemFor c (acc.getD 1) with
      | none => none
      | some items => (parseFmtAux rest none).map (fun tail => items ++ tail)

/-- Parse a struct format string into its field items, accepting the
little-endian byte-order mark < in leading position as sud.py uses it. -/
def parseFmt (s : String) : Option (List FmtItem) :=
  match s.data with
  | '<' :: rest => parseFmtAux rest none
  | cs => parseFmtAux cs none

/-- struct.calcsize for a parsed item list: total byte size, no padding
(standard size mode, as forced by the < prefix). -/
def calcsize (items : List FmtItem) : Nat :=
  (items.map FmtItem.size).sum

/-- Little-endian value of a byte list. -/
def leVal : List Nat → Nat
  | [] => 0
  | b :: rest => b + 256 * leVal rest

/-- Two-complement reading of a w-byte little-endian value. -/
def toSigned (w : Nat) (v : Nat) : Int :=
  if v < 2 ^ (8 * w - 1) then (v : Int) else (v : Int) - 2 ^ (8 * w)

/-- A primitive value produced by struct.unpack: a bytes object, an int or
a bool. The c code yields a one-byte bytes object. -/
inductive PyValue where
  | bytes (bs : List Nat)
  | int (n : Int)
  | bool (b : Bool)
deriving DecidableEq

/-- Decode one format item from exactly its own bytes. -/
def decodeItem : FmtItem → List Nat → PyValue
  | .bytes _, bs => .bytes bs
  | .uint _, bs => .int (leVal bs)
  | .sint w, bs => .int (toSigned w (leVal bs))
  | .bool, bs => .bool (leVal bs != 0)
  | .char, bs => .bytes bs

/-- Sequential decoding of a buffer by an item list. Fails, as
struct.unpack does, when the buffer length differs from calcsize. -/
def unpackItems : List FmtItem → List Nat → Option (List PyValue)
  | [], [] => some []
  | [], _ :: _ => none
  | it :: its, buf =>
    if buf.length < it.size then none
    else (unpackItems its (buf.drop it.size)).map
      (fun vs => decodeItem it (buf.take it.size) :: vs)

/-- struct.unpack(fmt, buffer): parse the format then decode the buffer. -/
def structUnpack (fmt : String) (buffer : List Nat) : Option (List PyValue) :=
  (parseFmt fmt).bind (fun items => unpackItems items buffer)

/-- Helper for pySplit: split a char list at commas. -/
def splitCommaAux : List Char → List Char → List (List Char)
  | [], acc => [acc.reverse]
  | c :: rest, acc =>
    if c = ',' then acc.reverse :: splitCommaAux rest []
    else splitCommaAux rest (c :: acc)

/-- Python str.split applied with a comma separator, as used on the
return_values strings of sud.py. -/
def pySplit (s : String) : List String :=
  (splitCommaAux s.data []).map (fun cs => String.mk cs)

/- The format strings and return-value name lists of sud.py, verbatim. -/

/-- Little-endian byte-order mark. -/
def ENDIAN : String := "<"

/-- Light meter block: [unused], Kelvin, x, y, Par, Lux, PUR. -/
def B_LIGHTMETER : String := "11s3i2IB"

/-- Flags, [unused], PH, NH3, Temp, [unused], then the light meter block. -/
def SUDREADING_VALUES : String := "2s3Hi13s" ++ B_LIGHTMETER

/-- Header, cmd, Timestamp, sensor values, trailing char. -/
def SUDREADING : String := ENDIAN ++ "2sI" ++ SUDREADING_VALUES ++ "c"

/-- Header, cmd, IsKelvin, light meter block, padding. -/
def SUDLIGHTMETER : String := ENDIAN ++ "2s?" ++ B_LIGHTMETER ++ "29s"

/-- Header plus ack flag, shared by the response formats. -/
def RESPONSE : String := ENDIAN ++ "2s?"

/-- Generic response format. -/
def GENERIC_RESPONSE : String := RESPONSE ++ "61s"

/-- HELLOSUD response format: adds device type and version. -/
def HELLOSUD_RESPONSE : String := RESPONSE ++ "BH58s"

/-- Names shared by the light readings. -/
def LIGHT_SENSOR_SUB_VALUES : String := ",kelvin,kelvin_x,kelvin_y,par,lux,pur,unused"

/-- Names for a full sensor reading. -/
def SENSOR_RETURN_VALUES : String :=
  "validation_bytes,timestamp,flags,unused,ph,nh3," ++ "temperature,unused,unused"
    ++ LIGHT_SENSOR_SUB_VALUES

/-- Names for a light-only reading. -/
def LIGHT_SENSOR_RETURN_VALUES : String :=
  "validation_bytes,is_kelvin,unused" ++ LIGHT_SENSOR_SUB_VALUES

/-- Names for the HELLOSUD response. -/
def HELLOSUD_RETURN_VALUES : String := "validation_bytes,ack,device_type,version,unused"

/-- Names for the generic response. -/
def GENERIC_RETURN_VALUES : String := "validation_bytes,ack,unused"

/-- The Action enum of sud.py. -/
inductive Action where
  | SENSOR_READING
  | ENTER_INTERACTIVE_MODE
  | LEAVE_INTERACTIVE_MODE
  | LIGHT_READING
deriving DecidableEq

/-- The BaseResponse subclass a ReadDefinition constructs. -/
inductive ReturnType where
  | Response
  | EnterInteractiveResponse
  | SensorReadingResponse
deriving DecidableEq

/-- ReadDefinition: format string, 2-byte validator, comma-separated
return-value names and the response class to construct. -/
structure ReadDefinition where
  parse_str : String
  validator : List Nat
  return_values : String
  return_type : ReturnType
deriving DecidableEq

instance : Inhabited ReadDefinition :=
  ⟨⟨ENDIAN, [], GENERIC_RETURN_VALUES, ReturnType.Response⟩⟩

/-- ActionDefinition: optional command string and ordered ReadDefinitions. -/
structure ActionDefinition where
  cmd_str : Option String
  read_definitions : List ReadDefinition
deriving DecidableEq

/-- First read of the SENSOR_READING action: the generic acknowledgement. -/
def genericAckRdef : ReadDefinition :=
  ⟨GENERIC_RESPONSE, [0x88, 0x02], GENERIC_RETURN_VALUES, ReturnType.Response⟩

/-- Second read of the SENSOR_READING action: the sensor payload. -/
def sudReadingRdef : ReadDefinition :=
  ⟨SUDREADING, [0x00, 0x01], SENSOR_RETURN_VALUES, ReturnType.SensorReadingResponse⟩

/-- Single read of the LIGHT_READING action. -/
def lightMeterRdef : ReadDefinition :=
  ⟨SUDLIGHTMETER, [0x00, 0x02], LIGHT_SENSOR_RETURN_VALUES, ReturnType.SensorReadingResponse⟩

/-- Single read of ENTER_INTERACTIVE_MODE. -/
def helloSudRdef : ReadDefinition :=
  ⟨HELLOSUD_RESPONSE, [0x88, 0x01], HELLOSUD_RETURN_VALUES, ReturnType.EnterInteractiveResponse⟩

/-- Single read of LEAVE_INTERACTIVE_MODE. -/
def byeSudRdef : ReadDefinition :=
  ⟨GENERIC_RESPONSE, [0x77, 0x01], GENERIC_RETURN_VALUES, ReturnType.Response⟩

/-- The ACTION_DEFINITIONS registry of sud.py, keyed by Action. -/
def ACTION_DEFINITIONS : Action → ActionDefinition
  | .SENSOR_READING => ⟨some "READING", [genericAckRdef, sudReadingRdef]⟩
  | .LIGHT_READING => ⟨none, [lightMeterRdef]⟩
  | .ENTER_INTERACTIVE_MODE => ⟨some "HELLOSUD", [helloSudRdef]⟩
  | .LEAVE_INTERACTIVE_MODE => ⟨some "BYESUD", [byeSudRdef]⟩

/-- All ReadDefinitions registered in ACTION_DEFINITIONS. -/
def registeredReadDefinitions : List ReadDefinition :=
  (ACTION_DEFINITIONS Action.SENSOR_READING).read_definitions ++
  (ACTION_DEFINITIONS Action.LIGHT_READING).read_definitions ++
  (ACTION_DEFINITIONS Action.ENTER_INTERACTIVE_MODE).read_definitions ++
  (ACTION_DEFINITIONS Action.LEAVE_INTERACTIVE_MODE).read_definitions

/-- Failure modes of BaseResponse construction: a struct.error from
struct.unpack (buffer size mismatch or bad format), or the ValueError
raised when the decoded value count differs from the name count. -/
inductive DecodeError where
  | structError
  | decodeMismatch
deriving DecidableEq

/-- The state of a constructed response object: the attributes assigned by
the setattr loop, in order (one entry per name in return_values), the final
validation bytes (overridden from raw_data[0:2] at the end of
BaseResponse init, superseding the unpacked validation_bytes entry), and
the class that was constructed. -/
structure ResponseObject where
  attrs : List (String × PyValue)
  validation_bytes : List Nat
  rtype : ReturnType
deriving DecidableEq

/-- BaseResponse init: unpack raw_data with the format of read_def, check
the value count against the comma-split return_values, assign one attribute
per name, then override validation_bytes with the first two raw bytes. -/
def mkResponse (raw_data : List Nat) (read_def : ReadDefinition) :
    Except DecodeError ResponseObject :=
  match structUnpack read_def.parse_str raw_data with
  | none => .error .structError
  | some parsed_values =>
    let expected_values := pySplit read_def.return_values
    if parsed_values.length = expected_values.length then
      .ok ⟨expected_values.zip parsed_values, raw_data.take 2, read_def.return_type⟩
    else
      .error .decodeMismatch

/-- Typed view of a SensorReadingResponse object after construction: the
stored raw instance attributes backing its properties. -/
structure SensorReadingResponse where
  _validation_bytes : List Nat
  _timestamp : Int
  _ph : Int
  _nh3 : Int
  _temperature : Int
  _is_kelvin : Bool
  _kelvin : Int
  _kelvin_x : Int
  _kelvin_y : Int
  _par : Int
  _lux : Int
  _pur : Int
deriving DecidableEq

/-- The ph property: the stored raw value divided by 100. Python true
division of integers is modelled as exact rational division. -/
def SensorReadingResponse.ph (s : SensorReadingResponse) : ℚ :=
  (s._ph : ℚ) / 100

/-- The nh3 property: the stored raw value divided by 1000. -/
def SensorReadingResponse.nh3 (s : SensorReadingResponse) : ℚ :=
  (s._nh3 : ℚ) / 1000

/-- The temperature property: the stored raw value divided by 1000. -/
def SensorReadingResponse.temperature (s : SensorReadingResponse) : ℚ :=
  (s._temperature : ℚ) / 1000

/-- The is_light_reading property: compare the stored validation bytes with
the validator of the first ReadDefinition registered for LIGHT_READING. -/
def SensorReadingResponse.is_light_reading (s : SensorReadingResponse) : Bool :=
  let rdef := ((ACTION_DEFINITIONS Action.LIGHT_READING).read_definitions).getD 0 default
  s._validation_bytes == rdef.validator

/-- The version property of EnterInteractiveResponse, as a function of the
stored decoded version integer (an unsigned 16-bit wire value, for which
the float division plus int truncation of the source equals integer
division). -/
def EnterInteractiveResponse.version (ver : Nat) : String :=
  let major := ver / 10000
  let minor := (ver / 100) % 100
  let rev := ver % 100
  toString major ++ "." ++ toString minor ++ "." ++ toString rev

/-- Outcome of one transport read inside the polling loop of
SUDevice.action: a returned packet, or a USBError raised by the read. -/
inductive ReadResult where
  | ok (resp : List Nat)
  | err
deriving DecidableEq

/-- One iteration of the polling loop, as seen by the orchestrator: the
read outcome together with the elapsed wall-clock seconds
(time.time() minus the recorded start) observed at the timeout check that
follows the read. Elapsed time is modelled as an integer count of
seconds. -/
structure PollEvent where
  result : ReadResult
  elapsed : Int
deriving DecidableEq

/-- The validator comparison resp[0:2] == rdef.validator applied to one
read outcome: the matched packet, or none for a USBError or a packet whose
leading two bytes differ from the validator. -/
def readMatch (r : ReadResult) (v : List Nat) : Option (List Nat) :=
  match r with
  | .ok resp => if resp.take 2 = v then some resp else none
  | .err => none

/-- Result of the while-loop polling one ReadDefinition: a matched packet,
or a TimeoutError. Both carry the poll events that were never reached. -/
inductive LoopResult where
  | matched (data : List Nat) (remaining : List PollEvent)
  | timedOut (remaining : List PollEvent)
deriving DecidableEq

/-- The while-loop of SUDevice.action for one ReadDefinition: read, record
a match when the leading bytes equal the validator (a USBError is swallowed
and treated as no data), then raise TimeoutError whenever the elapsed time
exceeds the budget, even on the iteration that just matched. Returns none
when the event list is exhausted while the loop would still be polling. -/
def pollLoop (rdef : ReadDefinition) (timeout : Int) :
    List PollEvent → Option LoopResult
  | [] => none
  | e :: rest =>
    let data := readMatch e.result rdef.validator
    if e.elapsed * 1000 > timeout then some (.timedOut rest)
    else
      match data with
      | some d => some (.matched d rest)
      | none => pollLoop rdef timeout rest

/-- Outcome of the for-loop over the read definitions of an action. -/
inductive ActionOutcome where
  | pending
  | timedOut (remaining : List PollEvent)
  | completed (data : List Nat) (rdef : ReadDefinition) (remaining : List PollEvent)
  | noReads
deriving DecidableEq

/-- The for-loop of SUDevice.action: poll each ReadDefinition in order on
the remaining events; a TimeoutError from any poll aborts the whole loop;
when every definition has matched, the data and definition of the last one
are kept for the return value. noReads marks the vacuous case of an empty
definition list (unreachable for the registered actions); pending marks an
exhausted event list. -/
def actionLoop (timeout : Int) : List ReadDefinition → List PollEvent → ActionOutcome
  | [], _ => .noReads
  | [rdef], evs =>
    match pollLoop rdef timeout evs with
    | none => .pending
    | some (.timedOut rem) => .timedOut rem
    | some (.matched d rem) => .completed d rdef rem
  | rdef :: r :: rs, evs =>
    match pollLoop rdef timeout evs with
    | none => .pending
    | some (.timedOut rem) => .timedOut rem
    | some (.matched _ rem) => actionLoop timeout (r :: rs) rem

/-- The value returned (or the exception raised) by SUDevice.action. -/
inductive ActionReturn where
  | pending
  | noReadsError
  | timeoutError
  | decodeFailure (e : DecodeError)
  | response (obj : ResponseObject)
deriving DecidableEq

/-- SUDevice.action: resolve the ActionDefinition of cmd (the initial write
of cmd_str is external transport traffic and does not affect the result),
run the polling for-loop, and construct the response of the last
ReadDefinition from the packet matched against it. -/
def SUDevice.action (cmd : Action) (timeout : Int) (events : List PollEvent) :
    ActionReturn :=
  match actionLoop timeout (ACTION_DEFINITIONS cmd).read_definitions events with
  | .pending => .pending
  | .noReads => .noReadsError
  | .timedOut _ => .timeoutError
  | .completed d rdef _ =>
    match mkResponse d rdef with
    | .error e => .decodeFailure e
    | .ok obj => .response obj

/- Concrete packets, events and objects used by the witness theorems. -/

/-- A 64-byte generic acknowledgement packet with the 0x88 0x02 prefix. -/
def goodPacket : List Nat := 0x88 :: 0x02 :: List.replicate 62 0

/-- The value list unpacked from goodPacket by the generic format. -/
def parsedGood : List PyValue :=
  [PyValue.bytes [0x88, 0x02], PyValue.bool false, PyValue.bytes (List.replicate 61 0)]

/-- A deliberately inconsistent ReadDefinition: the 3-value generic format
paired with the 5-name HELLOSUD name list. -/
def mismatchRdef : ReadDefinition :=
  ⟨GENERIC_RESPONSE, [0x88, 0x02], HELLOSUD_RETURN_VALUES, ReturnType.Response⟩

/-- A poll event whose read raised USBError after the budget had expired
(20 elapsed seconds against a 10000 ms budget). -/
def lateEvent : PollEvent := ⟨ReadResult.err, 20⟩

/-- A poll event whose read raised USBError well inside the budget. -/
def errEvent : PollEvent := ⟨ReadResult.err, 1⟩

/-- A 64-byte sensor-reading acknowledgement packet. -/
def ackPacket : List Nat := 0x88 :: 0x02 :: List.replicate 62 0

/-- A 64-byte sensor-reading payload packet with the 0x00 0x01 prefix. -/
def dataPacket : List Nat := 0x00 :: 0x01 :: List.replicate 62 0

/-- A 64-byte junk packet matching no registered validator. -/
def junkPacket : List Nat := List.replicate 64 5

/-- Poll event delivering the acknowledgement packet. -/
def ackEvent : PollEvent := ⟨ReadResult.ok ackPacket, 1⟩

/-- Poll event delivering the payload packet. -/
def dataEvent : PollEvent := ⟨ReadResult.ok dataPacket, 2⟩

/-- Poll event delivering the junk packet. -/
def junkEvent : PollEvent := ⟨ReadResult.ok junkPacket, 1⟩

/-- A 64-byte BYESUD response packet with the 0x77 0x01 prefix. -/
def byePacket : List Nat := 0x77 :: 0x01 :: List.replicate 62 0

/-- Poll event delivering the BYESUD response packet. -/
def byeEvent : PollEvent := ⟨ReadResult.ok byePacket, 1⟩

/-- The response object decoded from byePacket by byeSudRdef. -/
def byeObj : ResponseObject :=
  ⟨[("validation_bytes", PyValue.bytes [0x77, 0x01]),
    ("ack", PyValue.bool false),
    ("unused", PyValue.bytes (List.replicate 61 0))],
   [0x77, 0x01], ReturnType.Response⟩

/-- A 64-byte all-zero packet. -/
def zeros64 : List Nat := List.replicate 64 0

/-- A 64-byte sensor packet whose bytes 10 to 13 are all 0xFF, so the two
bytes backing ph decode to 65535. -/
def phProbePacket : List Nat :=
  0x00 :: 0x01 :: (List.replicate 8 0 ++ (List.replicate 4 0xFF ++ List.replicate 50 0))

/-- A SensorReadingResponse with all raw attributes zeroed and the
sensor-reading validation prefix. -/
def sampleReading : SensorReadingResponse :=
  ⟨[0x00, 0x01], 0, 0, 0, 0, false, 0, 0, 0, 0, 0, 0⟩

/- Helper lemmas about the decoder. -/

/-- A buffer whose length equals calcsize always unpacks, to one value per
format item. -/
theorem unpackItems_total (items : List FmtItem) : ∀ buf : List Nat,
    buf.length = calcsize items →
    ∃ vs, unpackItems items buf = some vs ∧ vs.length = items.length := by
  induction items with
  | nil =>
    intro buf h
    have hb : buf = [] := List.length_eq_zero.mp (by simpa [calcsize] using h)
    subst hb
    exact ⟨[], rfl, rfl⟩
  | cons it its ih =>
    intro buf h
    simp only [calcsize, List.map_cons, List.sum_cons] at h
    have hsize : it.size ≤ buf.length := by omega
    have hdrop : (buf.drop it.size).length = calcsize its := by
      simp [List.length_drop, calcsize]; omega
    obtain ⟨vs, hvs, hlen⟩ := ih (buf.drop it.size) hdrop
    refine ⟨decodeItem it (buf.take it.size) :: vs, ?_, by simp [hlen]⟩
    simp [unpackItems, Nat.not_lt.mpr hsize, hvs]

/-- A ReadDefinition whose format size matches the buffer and whose value
count matches its name count constructs a response successfully. -/
theorem mkResponse_total (rdef : ReadDefinition) (raw : List Nat)
    (hsz : (parseFmt rdef.parse_str).map calcsize = some raw.length)
    (hct : (parseFmt rdef.parse_str).map List.length
        = some (pySplit rdef.return_values).length) :
    ∃ obj, mkResponse raw rdef = Except.ok obj
      ∧ obj.validation_bytes = raw.take 2
      ∧ obj.rtype = rdef.return_type
      ∧ obj.attrs.length = (pySplit rdef.return_values).length := by
  cases hp : parseFmt rdef.parse_str with
  | none => rw [hp] at hsz; cases hsz
  | some items =>
    rw [hp] at hsz hct
    have hsz' : calcsize items = raw.length := by simpa using hsz
    have hct' : items.length = (pySplit rdef.return_values).length := by simpa using hct
    obtain ⟨vs, hvs, hlen⟩ := unpackItems_total items raw hsz'.symm
    have hun : structUnpack rdef.parse_str raw = some vs := by
      simp [structUnpack, hp, hvs]
    have hveq : vs.length = (pySplit rdef.return_values).length := hlen.trans hct'
    refine ⟨⟨(pySplit rdef.return_values).zip vs, raw.take 2, rdef.return_type⟩,
      ?_, rfl, rfl, ?_⟩
    · simp [mkResponse, hun, hveq]
    · simp [hveq]

/-- A successfully constructed response carries the first two raw bytes as
its validation bytes and the class of its ReadDefinition. -/
theorem mkResponse_ok_validation (raw : List Nat) (rdef : ReadDefinition)
    (obj : ResponseObject) (h : mkResponse raw rdef = Except.ok obj) :
    obj.validation_bytes = raw.take 2 ∧ obj.rtype = rdef.return_type := by
  unfold mkResponse at h
  cases hu : structUnpack rdef.parse_str raw with
  | none => rw [hu] at h; cases h
  | some parsed =>
    rw [hu] at h
    by_cases hc : parsed.length = (pySplit rdef.return_values).length
    · simp only [hc, if_true] at h
      cases h
      exact ⟨rfl, rfl⟩
    · simp only [hc, if_false] at h
      cases h

/- Helper lemmas about the polling loop. -/

/-- A USBError never matches any validator. -/
theorem readMatch_err (v : List Nat) : readMatch ReadResult.err v = none := rfl

/-- A matched packet starts with the validator it was matched against. -/
theorem readMatch_some {r : ReadResult} {v d : List Nat}
    (h : readMatch r v = some d) : d.take 2 = v := by
  cases r with
  | ok resp =>
    by_cases hv : resp.take 2 = v
    · simp only [readMatch, if_pos hv, Option.some.injEq] at h
      rw [← h]; exact hv
    · simp [readMatch, hv] at h
  | err => simp [readMatch] at h

/-- The iteration whose timeout check fails raises TimeoutError, whether or
not its read matched, and the later events are never read. -/
theorem pollLoop_timeout (rdef : ReadDefinition) (timeout : Int) (e : PollEvent)
    (rest : List PollEvent) (he : e.elapsed * 1000 > timeout) :
    pollLoop rdef timeout (e :: rest) = some (LoopResult.timedOut rest) := by
  simp [pollLoop, he]

/-- An in-budget iteration with no validator match polls on. -/
theorem pollLoop_skip (rdef : ReadDefinition) (timeout : Int) (e : PollEvent)
    (rest : List PollEvent) (hm : readMatch e.result rdef.validator = none)
    (ht : ¬ e.elapsed * 1000 > timeout) :
    pollLoop rdef timeout (e :: rest) = pollLoop rdef timeout rest := by
  simp [pollLoop, hm, ht]

/-- An in-budget iteration whose read matches ends the poll with its data. -/
theorem pollLoop_match (rdef : ReadDefinition) (timeout : Int) (e : PollEvent)
    (rest : List PollEvent) (d : List Nat)
    (hm : readMatch e.result rdef.validator = some d)
    (ht : ¬ e.elapsed * 1000 > timeout) :
    pollLoop rdef timeout (e :: rest) = some (LoopResult.matched d rest) := by
  simp [pollLoop, hm, ht]

/-- A run of in-budget non-matching events is skipped whole. -/
theorem pollLoop_skip_all (rdef : ReadDefinition) (timeout : Int) :
    ∀ junk evs : List PollEvent,
    (∀ f ∈ junk, readMatch f.result rdef.validator = none
        ∧ ¬ f.elapsed * 1000 > timeout) →
    pollLoop rdef timeout (junk ++ evs) = pollLoop rdef timeout evs := by
  intro junk
  induction junk with
  | nil => intro evs _; rfl
  | cons f fs ih =>
    intro evs h
    have hf := h f (List.mem_cons_self f fs)
    rw [List.cons_append, pollLoop_skip rdef timeout f (fs ++ evs) hf.1 hf.2]
    exact ih evs (fun g hg => h g (List.mem_cons_of_mem f hg))

/-- Whatever packet a poll reports as matched starts with the validator of
the definition it was polled for. -/
theorem pollLoop_matched_validator (rdef : ReadDefinition) (timeout : Int) :
    ∀ (evs : List PollEvent) (d : List Nat) (rem : List PollEvent),
    pollLoop rdef timeout evs = some (LoopResult.matched d rem) →
    d.take 2 = rdef.validator := by
  intro evs
  induction evs with
  | nil => intro d rem h; cases h
  | cons e rest ih =>
    intro d rem h
    by_cases ht : e.elapsed * 1000 > timeout
    · rw [pollLoop_timeout rdef timeout e rest ht] at h
      simp at h
    · cases hm : readMatch e.result rdef.validator with
      | none =>
        rw [pollLoop_skip rdef timeout e rest hm ht] at h
        exact ih d rem h
      | some d2 =>
        rw [pollLoop_match rdef timeout e rest d2 hm ht] at h
        simp at h
        rw [← h.1]
        exact readMatch_some hm

/-- Splitting lemma for the poll of one definition: with an over-budget
event e in the stream and every earlier event in budget, the poll either
matches strictly before e (leaving e and everything after it unread) or
raises TimeoutError exactly at e. -/
theorem pollLoop_prefix_split (rdef : ReadDefinition) (timeout : Int)
    (e : PollEvent) (post : List PollEvent) (he : e.elapsed * 1000 > timeout) :
    ∀ pre : List PollEvent,
    (∀ f ∈ pre, ¬ f.elapsed * 1000 > timeout) →
    pollLoop rdef timeout (pre ++ e :: post) = some (LoopResult.timedOut post)
    ∨ ∃ d pre2, pollLoop rdef timeout (pre ++ e :: post)
        = some (LoopResult.matched d (pre2 ++ e :: post)) ∧ ∀ f ∈ pre2, f ∈ pre := by
  intro pre
  induction pre with
  | nil =>
    intro _
    exact Or.inl (pollLoop_timeout rdef timeout e post he)
  | cons f fs ih =>
    intro h
    have hf : ¬ f.elapsed * 1000 > timeout := h f (List.mem_cons_self f fs)
    cases hm : readMatch f.result rdef.validator with
    | none =>
      rw [List.cons_append, pollLoop_skip rdef timeout f _ hm hf]
      rcases ih (fun g hg => h g (List.mem_cons_of_mem f hg)) with h1 | ⟨d, pre2, h2, hsub⟩
      · exact Or.inl h1
      · exact Or.inr ⟨d, pre2, h2, fun g hg => List.mem_cons_of_mem f (hsub g hg)⟩
    | some d =>
      rw [List.cons_append, pollLoop_match rdef timeout f _ d hm hf]
      exact Or.inr ⟨d, fs, rfl, fun g hg => List.mem_cons_of_mem f hg⟩

/-- Splitting lemma for the whole for-loop: with an over-budget event e in
the stream and every earlier event in budget, the action either completes
strictly before reading e, or aborts with TimeoutError at e, leaving every
later event unread and discarding all progress. -/
theorem actionLoop_prefix_split (timeout : Int) (e : PollEvent)
    (post : List PollEvent) (he : e.elapsed * 1000 > timeout) :
    ∀ (rdefs : List ReadDefinition) (pre : List PollEvent), rdefs ≠ [] →
    (∀ f ∈ pre, ¬ f.elapsed * 1000 > timeout) →
    actionLoop timeout rdefs (pre ++ e :: post) = ActionOutcome.timedOut post
    ∨ ∃ d r pre2, actionLoop timeout rdefs (pre ++ e :: post)
        = ActionOutcome.completed d r (pre2 ++ e :: post) := by
  intro rdefs
  induction rdefs with
  | nil => intro pre hne _; exact absurd rfl hne
  | cons rdef rest ih =>
    intro pre _ hpre
    rcases pollLoop_prefix_split rdef timeout e post he pre hpre with h1 | ⟨d, pre2, h2, hsub⟩
    · cases rest with
      | nil => exact Or.inl (by simp [actionLoop, h1])
      | cons r rs => exact Or.inl (by simp [actionLoop, h1])
    · cases rest with
      | nil => exact Or.inr ⟨d, rdef, pre2, by simp [actionLoop, h2]⟩
      | cons r rs =>
        have heq : actionLoop timeout (rdef :: r :: rs) (pre ++ e :: post)
            = actionLoop timeout (r :: rs) (pre2 ++ e :: post) := by
          simp [actionLoop, h2]
        rw [heq]
        exact ih pre2 (by simp) (fun f hf => hpre f (hsub f hf))

/-- A completed for-loop kept the data and definition of the last
ReadDefinition, and that data starts with its validator. -/
theorem actionLoop_completed_last (timeout : Int) :
    ∀ (rdefs : List ReadDefinition) (evs : List PollEvent) (d : List Nat)
      (r : ReadDefinition) (rem : List PollEvent),
    actionLoop timeout rdefs evs = ActionOutcome.completed d r rem →
    rdefs.getLast? = some r ∧ d.take 2 = r.validator := by
  intro rdefs
  induction rdefs with
  | nil => intro evs d r rem h; simp [actionLoop] at h
  | cons rdef rest ih =>
    intro evs d r rem h
    cases rest with
    | nil =>
      cases hp : pollLoop rdef timeout evs with
      | none => simp [actionLoop, hp] at h
      | some lr =>
        cases lr with
        | timedOut rem2 => simp [actionLoop, hp] at h
        | matched d2 rem2 =>
          simp [actionLoop, hp] at h
          obtain ⟨rfl, rfl, rfl⟩ := h
          exact ⟨rfl, pollLoop_matched_validator rdef timeout evs _ _ hp⟩
    | cons r2 rs =>
      cases hp : pollLoop rdef timeout evs with
      | none => simp [actionLoop, hp] at h
      | some lr =>
        cases lr with
        | timedOut rem2 => simp [actionLoop, hp] at h
        | matched d2 rem2 =>
          have h2 : actionLoop timeout (r2 :: rs) rem2 = ActionOutcome.completed d r rem := by
            simpa [actionLoop, hp] using h
          have hrec := ih rem2 d r rem h2
          exact ⟨by rw [List.getLast?_cons_cons]; exact hrec.1, hrec.2⟩

/-- Dropping a leading in-budget USBError event does not change the
for-loop outcome. -/
theorem actionLoop_cons_skip (timeout : Int) (e : PollEvent) (evs : List PollEvent)
    (rdefs : List ReadDefinition)
    (hm : ∀ v, readMatch e.result v = none)
    (ht : ¬ e.elapsed * 1000 > timeout) :
    actionLoop timeout rdefs (e :: evs) = actionLoop timeout rdefs evs := by
  cases rdefs with
  | nil => rfl
  | cons rdef rest =>
    cases rest with
    | nil => simp [actionLoop, pollLoop_skip rdef timeout e evs (hm rdef.validator) ht]
    | cons r rs => simp [actionLoop, pollLoop_skip rdef timeout e evs (hm rdef.validator) ht]

/-- C1: for a 64-byte packet whose unpacking succeeds, response
construction raises the DecodeMismatch ValueError, returning no object at
all, exactly when the decoded value count differs from the comma-split name
count of return_values; with equal counts it returns the object whose
attribute list assigns exactly one value per named field, in order. -/
theorem C1_decode_arity (raw : List Nat) (rdef : ReadDefinition)
    (parsed : List PyValue) (h64 : raw.length = 64)
    (hunpack : structUnpack rdef.parse_str raw = some parsed) :
    (parsed.length ≠ (pySplit rdef.return_values).length →
      mkResponse raw rdef = Except.error DecodeError.decodeMismatch)
    ∧ (parsed.length = (pySplit rdef.return_values).length →
      mkResponse raw rdef = Except.ok
        ⟨(pySplit rdef.return_values).zip parsed, raw.take 2, rdef.return_type⟩
      ∧ ((pySplit rdef.return_values).zip parsed).length
          = (pySplit rdef.return_values).length) := by
  constructor
  · intro hne
    simp [mkResponse, hunpack, hne]
  · intro heq
    exact ⟨by simp [mkResponse, hunpack, heq], by simp [heq]⟩

/-- C1 witness: the generic acknowledgement packet decodes to a full
3-attribute object under the registered definition, and raises
DecodeMismatch under a definition whose name list has 5 names. -/
theorem C1_decode_arity_witness :
    mkResponse goodPacket genericAckRdef = Except.ok
      ⟨(pySplit genericAckRdef.return_values).zip parsedGood, goodPacket.take 2,
        genericAckRdef.return_type⟩
    ∧ mkResponse goodPacket mismatchRdef = Except.error DecodeError.decodeMismatch :=
  ⟨((C1_decode_arity goodPacket genericAckRdef parsedGood (by decide) (by decide)).2
      (by decide)).1,
    (C1_decode_arity goodPacket mismatchRdef parsedGood (by decide) (by decide)).1
      (by decide)⟩

/-- C2 counterexample: in the SUDREADING layout the value named ph (index 4
of the name list) is backed by a two-byte unsigned field, not a four-byte
signed one, and on a packet whose bytes 10 to 13 are all 0xFF the decoded
ph value is 65535, while a four-byte signed little-endian read of those
bytes would give -1. -/
theorem C2_ph_width_counterexample :
    ((parseFmt SUDREADING).getD []).getD 4 FmtItem.char = FmtItem.uint 2
    ∧ (pySplit SENSOR_RETURN_VALUES).getD 4 ENDIAN = "ph"
    ∧ FmtItem.uint 2 ≠ FmtItem.sint 4
    ∧ ((structUnpack SUDREADING phProbePacket).getD []).getD 4 (PyValue.int 0)
        = PyValue.int 65535
    ∧ toSigned 4 (leVal [0xFF, 0xFF, 0xFF, 0xFF]) = -1
    ∧ (65535 : Int) ≠ -1 := by decide

/-- C2 amended: in the sensor/light reading wire layout, ph and nh3 are
each decoded as 2-byte unsigned little-endian integers and temperature as a
4-byte signed little-endian integer, following the 2-byte header, the
4-byte unsigned timestamp, the 2-byte flags block and one reserved 2-byte
slot, so ph sits at byte offset 10. -/
theorem C2_sensor_layout_amended :
    parseFmt SUDREADING = some [FmtItem.bytes 2, FmtItem.uint 4, FmtItem.bytes 2,
      FmtItem.uint 2, FmtItem.uint 2, FmtItem.uint 2, FmtItem.sint 4, FmtItem.bytes 13,
      FmtItem.bytes 11, FmtItem.sint 4, FmtItem.sint 4, FmtItem.sint 4, FmtItem.uint 4,
      FmtItem.uint 4, FmtItem.uint 1, FmtItem.char]
    ∧ pySplit SENSOR_RETURN_VALUES = ["validation_bytes", "timestamp", "flags", "unused",
        "ph", "nh3", "temperature", "unused", "unused", "kelvin", "kelvin_x", "kelvin_y",
        "par", "lux", "pur", "unused"]
    ∧ calcsize (((parseFmt SUDREADING).getD []).take 4) = 10 := by decide

/-- C6: the version property renders the decoded version integer as the
dotted string built from major = v / 10000, minor = (v / 100) mod 100 and
rev = v mod 100 in integer arithmetic, and in particular maps 10203 to
1.2.3, 0 to 0.0.0 and 90909 to 9.9.9. -/
theorem C6_version_dotted :
    (∀ v : Nat, EnterInteractiveResponse.version v
      = toString (v / 10000) ++ "." ++ toString ((v / 100) % 100)
        ++ "." ++ toString (v % 100))
    ∧ EnterInteractiveResponse.version 10203 = "1.2.3"
    ∧ EnterInteractiveResponse.version 0 = "0.0.0"
    ∧ EnterInteractiveResponse.version 90909 = "9.9.9" :=
  ⟨fun v => rfl, by decide, by decide, by decide⟩

/-- C7: the ph property is exactly the stored raw value divided by 100 and
the nh3 and temperature properties exactly the stored raw values divided by
1000, with raw 0 exposed as 0 and raw -100 exposed as -1 for ph, and the
stored raw value itself left untouched. -/
theorem C7_fixed_scaling :
    (∀ s : SensorReadingResponse,
      s.ph = (s._ph : ℚ) / 100
      ∧ s.nh3 = (s._nh3 : ℚ) / 1000
      ∧ s.temperature = (s._temperature : ℚ) / 1000)
    ∧ ({ sampleReading with _ph := 0 }).ph = 0
    ∧ ({ sampleReading with _ph := -100 }).ph = -1
    ∧ (∀ r : Int, ({ sampleReading with _ph := r })._ph = r) := by
  refine ⟨fun s => ⟨rfl, rfl, rfl⟩, ?_, ?_, fun r => rfl⟩
  · norm_num [SensorReadingResponse.ph]
  · norm_num [SensorReadingResponse.ph]

/-- C8: is_light_reading holds exactly when the stored validation bytes
equal the LightReading validator 0x00 0x02 taken from the registry, so it
is false for the sensor-reading prefix 0x00 0x01 on an otherwise identical
object; no separate stored discriminant is consulted. -/
theorem C8_is_light_reading_registry :
    (∀ s : SensorReadingResponse,
      (s.is_light_reading = true ↔ s._validation_bytes = [0x00, 0x02]))
    ∧ (((ACTION_DEFINITIONS Action.LIGHT_READING).read_definitions).getD 0 default).validator
        = [0x00, 0x02]
    ∧ (∀ s : SensorReadingResponse,
      ({ s with _validation_bytes := [0x00, 0x01] }).is_light_reading = false
      ∧ ({ s with _validation_bytes := [0x00, 0x02] }).is_light_reading = true) := by
  refine ⟨?_, by decide, ?_⟩
  · intro s
    simp [SensorReadingResponse.is_light_reading, ACTION_DEFINITIONS, lightMeterRdef]
  · intro s
    exact ⟨by simp [SensorReadingResponse.is_light_reading, ACTION_DEFINITIONS, lightMeterRdef],
      by simp [SensorReadingResponse.is_light_reading, ACTION_DEFINITIONS, lightMeterRdef]⟩

/-- C3: for any action, when the stream reaches a read attempt whose
elapsed time exceeds the budget (all earlier attempts being in budget), the
whole action either already completed strictly before that attempt, or
aborts there with TimeoutError: actionLoop reports timedOut leaving every
later event unread, all progress against earlier ReadDefinitions is
discarded, and SUDevice.action raises the timeout failure. -/
theorem C3_timeout_aborts_action (cmd : Action) (timeout : Int)
    (pre post : List PollEvent) (e : PollEvent)
    (hpre : ∀ f ∈ pre, ¬ f.elapsed * 1000 > timeout)
    (he : e.elapsed * 1000 > timeout) :
    (actionLoop timeout (ACTION_DEFINITIONS cmd).read_definitions (pre ++ e :: post)
        = ActionOutcome.timedOut post
      ∧ SUDevice.action cmd timeout (pre ++ e :: post) = ActionReturn.timeoutError)
    ∨ ∃ d r pre2,
        actionLoop timeout (ACTION_DEFINITIONS cmd).read_definitions (pre ++ e :: post)
        = ActionOutcome.completed d r (pre2 ++ e :: post) := by
  have hne : (ACTION_DEFINITIONS cmd).read_definitions ≠ [] := by
    cases cmd <;> simp [ACTION_DEFINITIONS]
  rcases actionLoop_prefix_split timeout e post he _ pre hne hpre with h1 | ⟨d, r, pre2, h2⟩
  · exact Or.inl ⟨h1, by simp [SUDevice.action, h1]⟩
  · exact Or.inr ⟨d, r, pre2, h2⟩

/-- C3 witness: a single over-budget erroring read aborts a light reading
with TimeoutError at once. -/
theorem C3_timeout_aborts_action_witness :
    (actionLoop 10000 (ACTION_DEFINITIONS Action.LIGHT_READING).read_definitions
        ([] ++ lateEvent :: []) = ActionOutcome.timedOut []
      ∧ SUDevice.action Action.LIGHT_READING 10000 ([] ++ lateEvent :: [])
        = ActionReturn.timeoutError)
    ∨ ∃ d r pre2,
        actionLoop 10000 (ACTION_DEFINITIONS Action.LIGHT_READING).read_definitions
        ([] ++ lateEvent :: []) = ActionOutcome.completed d r (pre2 ++ lateEvent :: []) :=
  C3_timeout_aborts_action Action.LIGHT_READING 10000 [] [] lateEvent
    (fun f hf => absurd hf (List.not_mem_nil f)) (by decide)

/-- C4: the SENSOR_READING action, fed junk then a packet with the ack
validator, then junk, then a packet with the payload validator, all in
budget, matches one packet per ReadDefinition in registry order, skips the
junk, and returns exactly the response decoded from the payload packet by
the payload definition, a SensorReadingResponse; the ack packet does not
reach the caller. -/
theorem C4_two_phase_sensor_reading (timeout : Int)
    (pre mid post : List PollEvent) (eAck eData : PollEvent)
    (ackPkt dataPkt : List Nat)
    (hpre : ∀ f ∈ pre, readMatch f.result genericAckRdef.validator = none
        ∧ ¬ f.elapsed * 1000 > timeout)
    (hAck : readMatch eAck.result genericAckRdef.validator = some ackPkt)
    (hAckT : ¬ eAck.elapsed * 1000 > timeout)
    (hmid : ∀ f ∈ mid, readMatch f.result sudReadingRdef.validator = none
        ∧ ¬ f.elapsed * 1000 > timeout)
    (hData : readMatch eData.result sudReadingRdef.validator = some dataPkt)
    (hDataT : ¬ eData.elapsed * 1000 > timeout)
    (hLen : dataPkt.length = 64) :
    ∃ obj, SUDevice.action Action.SENSOR_READING timeout
        (pre ++ eAck :: (mid ++ eData :: post)) = ActionReturn.response obj
      ∧ mkResponse dataPkt sudReadingRdef = Except.ok obj
      ∧ obj.rtype = ReturnType.SensorReadingResponse
      ∧ obj.validation_bytes = dataPkt.take 2 := by
  have h1 : pollLoop genericAckRdef timeout (pre ++ eAck :: (mid ++ eData :: post))
      = some (LoopResult.matched ackPkt (mid ++ eData :: post)) := by
    rw [pollLoop_skip_all genericAckRdef timeout pre _ hpre]
    exact pollLoop_match _ _ _ _ _ hAck hAckT
  have h2 : pollLoop sudReadingRdef timeout (mid ++ eData :: post)
      = some (LoopResult.matched dataPkt post) := by
    rw [pollLoop_skip_all sudReadingRdef timeout mid _ hmid]
    exact pollLoop_match _ _ _ _ _ hData hDataT
  have h3 : actionLoop timeout [genericAckRdef, sudReadingRdef]
      (pre ++ eAck :: (mid ++ eData :: post))
      = ActionOutcome.completed dataPkt sudReadingRdef post := by
    simp [actionLoop, h1, h2]
  obtain ⟨obj, hok, hvb, hrt, -⟩ := mkResponse_total sudReadingRdef dataPkt
    (by rw [hLen]; decide) (by decide)
  refine ⟨obj, ?_, hok, by rw [hrt]; rfl, hvb⟩
  simp [SUDevice.action, ACTION_DEFINITIONS, h3, hok]

/-- C4 witness: ack packet, junk packet, payload packet in that order yield
a decoded SensorReadingResponse built from the payload packet. -/
theorem C4_two_phase_sensor_reading_witness :
    ∃ obj, SUDevice.action Action.SENSOR_READING 10000
        ([] ++ ackEvent :: ([junkEvent] ++ dataEvent :: []))
      = ActionReturn.response obj
      ∧ mkResponse dataPacket sudReadingRdef = Except.ok obj
      ∧ obj.rtype = ReturnType.SensorReadingResponse
      ∧ obj.validation_bytes = dataPacket.take 2 :=
  C4_two_phase_sensor_reading 10000 [] [junkEvent] [] ackEvent dataEvent ackPacket dataPacket
    (fun f hf => absurd hf (List.not_mem_nil f)) (by decide) (by decide)
    (fun f hf => by rw [List.mem_singleton] at hf; subst hf; exact ⟨by decide, by decide⟩)
    (by decide) (by decide) (by decide)

/-- C5: a USBError raised by a transport read is swallowed: inside the
budget the action behaves exactly as if the failed read had not happened
(so the error is retried and never surfaces to the caller), while the time
it consumed still counts against the shared budget, timing the action out
when the post-read check finds the budget exceeded. -/
theorem C5_transport_error_swallowed (timeout : Int) (e : PollEvent)
    (evs : List PollEvent) (cmd : Action) (herr : e.result = ReadResult.err) :
    (¬ e.elapsed * 1000 > timeout →
      SUDevice.action cmd timeout (e :: evs) = SUDevice.action cmd timeout evs)
    ∧ (e.elapsed * 1000 > timeout →
      SUDevice.action cmd timeout (e :: evs) = ActionReturn.timeoutError) := by
  constructor
  · intro ht
    have hm : ∀ v, readMatch e.result v = none := by
      intro v; rw [herr]; rfl
    unfold SUDevice.action
    rw [actionLoop_cons_skip timeout e evs _ hm ht]
  · intro ht
    unfold SUDevice.action
    cases hrd : (ACTION_DEFINITIONS cmd).read_definitions with
    | nil => cases cmd <;> simp [ACTION_DEFINITIONS] at hrd
    | cons rdef rest =>
      cases rest with
      | nil => simp [actionLoop, pollLoop_timeout rdef timeout e evs ht]
      | cons r rs => simp [actionLoop, pollLoop_timeout rdef timeout e evs ht]

/-- C5 witness: an in-budget erroring read leaves the light reading action
unchanged. -/
theorem C5_transport_error_swallowed_witness :
    SUDevice.action Action.LIGHT_READING 10000 (errEvent :: [])
      = SUDevice.action Action.LIGHT_READING 10000 [] :=
  (C5_transport_error_swallowed 10000 errEvent [] Action.LIGHT_READING rfl).1 (by decide)

/-- C9: every ReadDefinition registered in ACTION_DEFINITIONS has a format
describing exactly 64 bytes and yielding exactly as many values as its
return_values has comma-separated names, so decoding any 64-byte packet
with a registered definition succeeds and never reaches the
field-count-mismatch branch. -/
theorem C9_registered_formats_safe (rdef : ReadDefinition)
    (h : rdef ∈ registeredReadDefinitions) :
    (parseFmt rdef.parse_str).map calcsize = some 64
    ∧ (parseFmt rdef.parse_str).map List.length
        = some (pySplit rdef.return_values).length
    ∧ ∀ raw : List Nat, raw.length = 64 →
        ∃ obj, mkResponse raw rdef = Except.ok obj := by
  have key : ∀ r : ReadDefinition,
      (parseFmt r.parse_str).map calcsize = some 64 →
      (parseFmt r.parse_str).map List.length = some (pySplit r.return_values).length →
      (parseFmt r.parse_str).map calcsize = some 64
      ∧ (parseFmt r.parse_str).map List.length = some (pySplit r.return_values).length
      ∧ ∀ raw : List Nat, raw.length = 64 → ∃ obj, mkResponse raw r = Except.ok obj := by
    intro r hs hc
    refine ⟨hs, hc, fun raw hraw => ?_⟩
    obtain ⟨obj, hobj, -, -, -⟩ := mkResponse_total r raw (by rw [hraw]; exact hs) hc
    exact ⟨obj, hobj⟩
  have h5 : rdef = genericAckRdef ∨ rdef = sudReadingRdef ∨ rdef = lightMeterRdef
      ∨ rdef = helloSudRdef ∨ rdef = byeSudRdef := by
    simpa [registeredReadDefinitions, ACTION_DEFINITIONS] using h
  rcases h5 with rfl | rfl | rfl | rfl | rfl
  · exact key _ (by decide) (by decide)
  · exact key _ (by decide) (by decide)
  · exact key _ (by decide) (by decide)
  · exact key _ (by decide) (by decide)
  · exact key _ (by decide) (by decide)

/-- C9 witness: the sensor payload definition is registered and decodes the
all-zero 64-byte packet successfully. -/
theorem C9_registered_formats_safe_witness :
    ∃ obj, mkResponse zeros64 sudReadingRdef = Except.ok obj :=
  (C9_registered_formats_safe sudReadingRdef (by decide)).2.2 zeros64 (by decide)

/-- C10: every successfully constructed response carries as its validation
bytes the first two bytes of the raw packet it came from, the raw slice
overriding the unpacked value, and every response returned by
SUDevice.action carries the validator of the last ReadDefinition of the
requested action. -/
theorem C10_validation_override :
    (∀ (raw : List Nat) (rdef : ReadDefinition) (obj : ResponseObject),
      mkResponse raw rdef = Except.ok obj → obj.validation_bytes = raw.take 2)
    ∧ (∀ (cmd : Action) (timeout : Int) (events : List PollEvent)
        (obj : ResponseObject) (lastR : ReadDefinition),
      SUDevice.action cmd timeout events = ActionReturn.response obj →
      ((ACTION_DEFINITIONS cmd).read_definitions).getLast? = some lastR →
      obj.validation_bytes = lastR.validator) := by
  constructor
  · intro raw rdef obj h
    exact (mkResponse_ok_validation raw rdef obj h).1
  · intro cmd timeout events obj lastR hact hlast
    unfold SUDevice.action at hact
    cases ha : actionLoop timeout (ACTION_DEFINITIONS cmd).read_definitions events with
    | pending => rw [ha] at hact; simp at hact
    | noReads => rw [ha] at hact; simp at hact
    | timedOut rem => rw [ha] at hact; simp at hact
    | completed d r rem =>
      rw [ha] at hact
      simp only [] at hact
      obtain ⟨hl, hv⟩ := actionLoop_completed_last timeout _ events d r rem ha
      rw [hl] at hlast
      have hr : r = lastR := Option.some.inj hlast
      subst hr
      cases hmk : mkResponse d r with
      | error er => simp [hmk] at hact
      | ok obj2 =>
        rw [hmk] at hact
        simp at hact
        rw [← hact]
        exact ((mkResponse_ok_validation d r obj2 hmk).1).trans hv

/-- C10 witness: the object returned by the LEAVE_INTERACTIVE_MODE action
on a BYESUD packet carries the byeSudRdef validator. -/
theorem C10_validation_override_witness :
    byeObj.validation_bytes = byeSudRdef.validator :=
  C10_validation_override.2 Action.LEAVE_INTERACTIVE_MODE 10000 [byeEvent] byeObj byeSudRdef
    (by decide) (by decide)

end Sud
